import Mathlib

/-!
Verification of the AEE Hybrid Dual-Signature Certification Protocol
(`src/aee/core.py` and `src/aee/pqc_hybrid.py`) against its specification.

Shallow embedding conventions:
* Python floats that only flow through arithmetic and comparisons are
  modelled as exact rationals (`Rat`); the square root inside
  `statistics.stdev` is an explicit function parameter `sqrtQ`.
* Byte strings are `List Nat`; the external Ed25519 primitive is modelled
  as an idealized deterministic signature scheme (public key derived
  injectively from the private key, verification succeeds exactly on the
  honestly produced signature), and cryptographic faults of the primitive
  are modelled through an abstract outcome parameter.
* Python exceptions are modelled with `Except`; a `try/except` block that
  swallows exceptions becomes a `match` on the `Except` value.
-/

namespace AEE

/-- Decidable equality of `Except` values, for evaluating the model on
concrete inputs. -/
instance {ε α : Type} [DecidableEq ε] [DecidableEq α] : DecidableEq (Except ε α) := fun a b =>
  match a, b with
  | .error e₁, .error e₂ =>
    if h : e₁ = e₂ then isTrue (by rw [h]) else isFalse (by intro he; cases he; exact h rfl)
  | .ok a₁, .ok a₂ =>
    if h : a₁ = a₂ then isTrue (by rw [h]) else isFalse (by intro he; cases he; exact h rfl)
  | .error _, .ok _ => isFalse (by intro h; cases h)
  | .ok _, .error _ => isFalse (by intro h; cases h)

/-! ### Module 1: RobustNTPQuorum (src/aee/core.py, lines 112-271)

`query_server` performs network I/O, so `obtener_timestamp_consenso` is
embedded from its aggregation point onward: the list of per-server
`NTPResponse` results is the input. -/

/-- Embeds the `NTPResponse` dataclass (core.py lines 112-120). -/
structure NTPResponse where
  server : String
  timestamp : Rat
  offset : Rat
  delay : Rat
  success : Bool
  error : Option String
deriving DecidableEq

/-- The constructor parameters of `RobustNTPQuorum.__init__` that
`obtener_timestamp_consenso` reads (core.py lines 138-156). -/
structure QuorumConfig where
  maxDeviationMs : Rat
  minSuccessful : Nat
deriving DecidableEq

/-- The index selection of Python `statistics.median` on the sorted data:
odd length takes the middle element, even length averages the two middle
elements; the empty list, on which `statistics.median` raises
`StatisticsError`, gives `none`. -/
def medianSorted (s : List Rat) : Option Rat :=
  if s.length = 0 then none
  else if s.length % 2 = 1 then s[s.length / 2]?
  else
    match s[s.length / 2 - 1]?, s[s.length / 2]? with
    | some a, some b => some ((a + b) / 2)
    | _, _ => none

/-- Embeds Python `statistics.median`: sort ascending, then select. -/
def medianQ (l : List Rat) : Option Rat :=
  medianSorted (List.insertionSort (fun a b : Rat => a ≤ b) l)

/-- The exact sample variance used by Python `statistics.stdev` (which then
takes its square root): sum of squared deviations from the mean divided by
`n - 1`. -/
def sampleVarQ (l : List Rat) : Rat :=
  if l.length ≤ 1 then 0
  else
    let n : Rat := (l.length : Rat)
    let m : Rat := l.sum / n
    ((l.map (fun x => (x - m) * (x - m))).sum) / (n - 1)

/-- Round-half-to-even at the integer, the tie-breaking rule of Python
`round`. -/
def roundHalfEven (x : Rat) : Int :=
  let f : Int := ⌊x⌋
  let r : Rat := x - (f : Rat)
  if r < 1/2 then f
  else if (1:Rat)/2 < r then f + 1
  else if f % 2 = 0 then f else f + 1

/-- Embeds Python `round(x, 2)` on the exact rational model. -/
def roundTo2 (q : Rat) : Rat := ((roundHalfEven (q * 100) : Rat)) / 100

/-- One entry of `detalle_servidores` (core.py lines 258-266). -/
structure ServerDetail where
  servidor : String
  timestamp : Rat
  offset_ms : Rat
  delay_ms : Rat
deriving DecidableEq

/-- The dictionary returned by `obtener_timestamp_consenso`
(core.py lines 251-267).  `timestamp_iso` is the ISO-8601 rendering of
`timestamp_unix`; the rendering itself is modelled as the decimal string of
the rational. -/
structure ConsensusRecord where
  timestamp_unix : Rat
  timestamp_iso : String
  servidores_consultados : Nat
  servidores_exitosos : Nat
  servidores_usados_consenso : Nat
  desviacion_estandar_ms : Rat
  detalle_servidores : List ServerDetail
deriving DecidableEq

/-- Model of the ISO-8601 rendering `datetime.fromtimestamp(...).isoformat()`. -/
def isoRender (q : Rat) : String := toString q

/-- The exceptions `obtener_timestamp_consenso` can raise: the explicit
`RuntimeError` for a failed quorum (core.py lines 215-218), and the
`StatisticsError` that `statistics.median` raises on an empty list. -/
inductive ConsensoErr where
  | quorum (msg : String)
  | statsEmpty
deriving DecidableEq

/-- Embeds `RobustNTPQuorum.obtener_timestamp_consenso` (core.py lines
190-271) from its aggregation point: `responses` is the list of
`query_server` results, one per configured server.  `sqrtQ` models the
square root taken by `statistics.stdev`. -/
def obtenerTimestampConsenso (sqrtQ : Rat → Rat) (cfg : QuorumConfig)
    (responses : List NTPResponse) : Except ConsensoErr ConsensusRecord :=
  let successful := responses.filter (·.success)
  if successful.length < cfg.minSuccessful then
    .error (.quorum "Quórum NTP falló: insuficientes servidores respondieron")
  else
    let timestamps := successful.map (·.timestamp)
    match medianQ timestamps with
    | none => .error .statsEmpty
    | some medianInitial =>
      let stdDevMs := sqrtQ (sampleVarQ timestamps) * 1000
      let finalTimestamps :=
        if 3 ≤ timestamps.length then
          let filtered := timestamps.filter
            (fun ts => |ts - medianInitial| * 1000 ≤ cfg.maxDeviationMs)
          if filtered.length < cfg.minSuccessful then timestamps else filtered
        else timestamps
      match medianQ finalTimestamps with
      | none => .error .statsEmpty
      | some medianFinal =>
        .ok { timestamp_unix := medianFinal
              timestamp_iso := isoRender medianFinal
              servidores_consultados := responses.length
              servidores_exitosos := successful.length
              servidores_usados_consenso := finalTimestamps.length
              desviacion_estandar_ms :=
                if 3 ≤ timestamps.length then roundTo2 stdDevMs else 0
              detalle_servidores := successful.map (fun r =>
                { servidor := r.server
                  timestamp := r.timestamp
                  offset_ms := roundTo2 (r.offset * 1000)
                  delay_ms := roundTo2 (r.delay * 1000) }) }

/-- Bounded integer square root by bisection (used only to instantiate the
abstract `sqrtQ` parameter at concrete inputs). -/
def isqrtGo (n : Nat) : Nat → Nat → Nat → Nat
  | 0, lo, _ => lo
  | fuel + 1, lo, hi =>
    if hi ≤ lo then lo
    else
      let mid := (lo + hi + 1) / 2
      if mid * mid ≤ n then isqrtGo n fuel mid hi else isqrtGo n fuel lo (mid - 1)

/-- Integer square root via 64 bisection steps. -/
def isqrtN (n : Nat) : Nat := isqrtGo n 64 0 n

/-- A concrete rational square-root approximation (three decimal digits),
standing in for the floating-point square root inside `statistics.stdev`
when the model is evaluated on concrete inputs. -/
def qSqrtApprox (q : Rat) : Rat := ((isqrtN (q * 1000000).floor.toNat : Rat)) / 1000

/-! ### Module 2: HybridCryptoEngine (src/aee/pqc_hybrid.py)

The Ed25519 primitive lives in the external `cryptography` library; it is
modelled as an idealized deterministic scheme: the raw public key is an
injective function of the raw private key, signing is deterministic, and
verification succeeds exactly on the honestly produced signature.  The
Kyber-768 KEM and its possible runtime failures are modelled by an
abstract encapsulation function returning `Option`. -/

/-- Byte strings (`bytes`) as lists of naturals. -/
abbrev ByteSeq := List Nat

/-- Idealized Ed25519 public-key derivation (injective). -/
def pubOf (priv : ByteSeq) : ByteSeq := priv.map (· + 1)

/-- Inverse of `pubOf`, used by the idealized verification. -/
def privOfPub (pub : ByteSeq) : ByteSeq := pub.map (· - 1)

/-- The bytes of a Python `str` under `.encode('utf-8')`, modelled as the
(injective) sequence of code points. -/
def strBytes (s : String) : ByteSeq := s.data.map Char.toNat

/-- Idealized deterministic Ed25519 signature (always non-empty, as a real
64-byte Ed25519 signature is). -/
def edSign (priv msg : ByteSeq) : ByteSeq := 0 :: (priv ++ msg)

/-- Outcome of the Ed25519 `verify` call of the `cryptography` library:
success, `InvalidSignature`, or any other exception of the primitive. -/
inductive EdOutcome where
  | valid
  | invalid
  | fault
deriving DecidableEq

/-- The honest model of the library's Ed25519 verification: valid exactly
for the honestly produced signature, never a fault. -/
def edPrim (pub sig msg : ByteSeq) : EdOutcome :=
  if sig = edSign (privOfPub pub) msg then .valid else .invalid

/-- Embeds the `HybridKeyPair` dataclass (pqc_hybrid.py lines 101-135). -/
structure HybridKeyPair where
  ed25519_private : ByteSeq
  ed25519_public : ByteSeq
  kyber_private : ByteSeq
  kyber_public : ByteSeq
  created_at : String
  key_id : String
deriving DecidableEq

/-- Embeds the `DualSignature` dataclass (pqc_hybrid.py lines 138-162).
The two `algorithm_*` constants are omitted. -/
structure DualSignature where
  signature_classic : ByteSeq
  pqc_seal : Option ByteSeq
  pqc_auth_tag : Option ByteSeq
  timestamp : String
deriving DecidableEq

/-- Model of `hmac.new(key, msg, sha256).digest()`: an injective pairing of
key and message (the length prefix separates the two parts). -/
def hmacDigest (key msg : ByteSeq) : ByteSeq := key.length :: (key ++ msg)

/-- Salt constant of `_derivar_clave_autenticacion` (pqc_hybrid.py line 407). -/
def saltAEE : ByteSeq := strBytes "AEE-PQC-v2.1-AuthKey"

/-- Info constant of `_derivar_clave_autenticacion` (pqc_hybrid.py line 409). -/
def infoAuth : ByteSeq := strBytes "authentication-key"

/-- Embeds `HybridCryptoEngine._derivar_clave_autenticacion`
(pqc_hybrid.py lines 404-410). -/
def derivarClaveAutenticacion (sharedSecret : ByteSeq) : ByteSeq :=
  hmacDigest (hmacDigest saltAEE sharedSecret) infoAuth

/-- Abstract Kyber-768 encapsulation: from the public key, a fresh
`(shared_secret, ciphertext)` pair, or `none` when the library call fails
(the randomness of the KEM makes the result a parameter of the model). -/
abbrev Encaps := ByteSeq → Option (ByteSeq × ByteSeq)

/-- Embeds `HybridCryptoEngine._encapsular_hibrido` (pqc_hybrid.py lines
362-376): encapsulate, derive the authentication key, HMAC the message.
`none` models an exception anywhere inside the optional layer. -/
def encapsularHibrido (encaps : Encaps) (mensajeCanonical : String)
    (keypair : HybridKeyPair) : Option (ByteSeq × ByteSeq × ByteSeq) :=
  match encaps keypair.kyber_public with
  | none => none
  | some (sharedSecret, ciphertextKem) =>
    let authKey := derivarClaveAutenticacion sharedSecret
    let authTag := hmacDigest authKey (strBytes mensajeCanonical)
    some (ciphertextKem, authTag, sharedSecret)

/-- Exceptions raised by `firmar_dual`: `ValueError` for invalid
parameters, `RuntimeError` (the spec's SigningError) for a classical
signature failure. -/
inductive FirmarErr where
  | valueError (msg : String)
  | signingError (msg : String)
deriving DecidableEq

/-- Embeds `HybridCryptoEngine.firmar_dual` (pqc_hybrid.py lines 224-285),
in the non-HSM configuration (`HSM_ENABLED` defaults to false).
`kyberAvailable` models the `KYBER_AVAILABLE` import flag, `now` the
signing instant.  A classical private key that is not 32 bytes long makes
`Ed25519PrivateKey.from_private_bytes` raise, which the code converts to
`RuntimeError`; a failure of the optional Kyber layer (`encaps` returning
`none`) is swallowed and both post-quantum fields are omitted. -/
def firmarDual (kyberAvailable : Bool) (encaps : Encaps) (now : String)
    (mensajeCanonical : String) (keypair : HybridKeyPair) :
    Except FirmarErr DualSignature :=
  if mensajeCanonical = "" then
    .error (.valueError "mensaje_canonical debe ser una cadena no vacía")
  else if keypair.ed25519_private = [] then
    .error (.valueError "keypair debe contener clave privada Ed25519 válida")
  else if keypair.ed25519_private.length ≠ 32 then
    .error (.signingError "Error en firma Ed25519 (no se permite degradación silenciosa)")
  else
    let signatureClassic := edSign keypair.ed25519_private (strBytes mensajeCanonical)
    let pq :=
      if kyberAvailable && !keypair.kyber_public.isEmpty then
        encapsularHibrido encaps mensajeCanonical keypair
      else none
    match pq with
    | some (sealBytes, tagBytes, _) =>
      .ok { signature_classic := signatureClassic, pqc_seal := some sealBytes,
            pqc_auth_tag := some tagBytes, timestamp := now }
    | none =>
      .ok { signature_classic := signatureClassic, pqc_seal := none,
            pqc_auth_tag := none, timestamp := now }

/-! ### Module 3: CanonicalJSONSerializer (src/aee/core.py, lines 37-105)

`serialize` is `json.dumps(data, sort_keys=True, separators=(',', ':'),
ensure_ascii=False)`.  JSON values are modelled by `JValue`: numbers are
integers, plus the three float specials `nan`/`inf`/`ninf` that
`json.dumps` renders as `NaN`/`Infinity`/`-Infinity` under its default
`allow_nan=True`.  The rendering follows CPython's `json` encoder:
keys sorted by code-point order, no whitespace, `ensure_ascii=False`
string escaping (only the two JSON metacharacters and control characters
are escaped). -/

/-- The decimal digit character for `d < 10`. -/
def digitCh (d : Nat) : Char := Char.ofNat (48 + d)

/-- Lowercase hexadecimal digit character for `d < 16`. -/
def hexCh (d : Nat) : Char := if d < 10 then digitCh d else Char.ofNat (87 + d)

/-- Decimal digits of a natural number, most significant first; `fuel`
bounds the recursion (callers pass `fuel ≥ n`). -/
def natDigitsGo : Nat → Nat → List Char
  | 0, n => [digitCh (n % 10)]
  | fuel + 1, n =>
    if n < 10 then [digitCh n] else natDigitsGo fuel (n / 10) ++ [digitCh (n % 10)]

/-- The decimal representation of a natural number. -/
def natDigits (n : Nat) : List Char := natDigitsGo n n

/-- The Python `repr` of an `int`: optional minus sign, decimal digits. -/
def intReprChars (i : Int) : List Char :=
  if i < 0 then '-' :: natDigits (-i).toNat else natDigits i.toNat

/-- CPython `json` encoder escaping of one character under
`ensure_ascii=False`: `"` and backslash get two-character escapes, the
five named control characters get theirs, remaining control characters
get `\u00XX`, everything else passes through. -/
def escChar (c : Char) : List Char :=
  if c = '\"' then ['\\', '\"']
  else if c = '\\' then ['\\', '\\']
  else if c = '\x08' then ['\\', 'b']
  else if c = '\x0c' then ['\\', 'f']
  else if c = '\n' then ['\\', 'n']
  else if c = '\r' then ['\\', 'r']
  else if c = '\t' then ['\\', 't']
  else if c.toNat < 32 then
    ['\\', 'u', '0', '0', hexCh (c.toNat / 16), hexCh (c.toNat % 16)]
  else [c]

/-- Escape every character of a string body. -/
def escList : List Char → List Char
  | [] => []
  | c :: rest => escChar c ++ escList rest

/-- A JSON string literal: quote, escaped body, quote. -/
def quoteChars (s : String) : List Char := '\"' :: (escList s.data ++ ['\"'])

/-- Join rendered pieces with the `','` item separator of
`separators=(',', ':')`. -/
def intercalateComma : List (List Char) → List Char
  | [] => []
  | [x] => x
  | x :: rest => x ++ ',' :: intercalateComma rest

/-- One rendered object entry: quoted key, `':'` separator, rendered value. -/
def entryOf (p : String × List Char) : List Char := quoteChars p.1 ++ ':' :: p.2

/-- Key order on rendered entries, as Python `sorted` compares keys. -/
def keyLe (a b : String × List Char) : Prop := a.1 ≤ b.1

/-- Strict key order on rendered entries. -/
def keyLt (a b : String × List Char) : Prop := a.1 < b.1

instance : DecidableRel keyLe := fun a b => inferInstanceAs (Decidable (a.1 ≤ b.1))

instance : IsTotal (String × List Char) keyLe := ⟨fun a b => le_total a.1 b.1⟩

instance : IsTrans (String × List Char) keyLe := ⟨fun _ _ _ h1 h2 => le_trans h1 h2⟩

instance : IsAntisymm (String × List Char) keyLt :=
  ⟨fun _ _ h1 h2 => absurd h2 (lt_asymm h1)⟩

/-- `sort_keys=True`: sort the rendered entries by key (code-point order,
as Python `sorted` on `str`). -/
def sortPairs (l : List (String × List Char)) : List (String × List Char) :=
  List.insertionSort keyLe l

/-- The JSON values accepted by `CanonicalJSONSerializer.serialize`:
`null`, booleans, integers, the float specials, strings, arrays, and
string-keyed objects in insertion order. -/
inductive JValue where
  | null
  | bool (b : Bool)
  | num (n : Int)
  | nan
  | inf
  | ninf
  | str (s : String)
  | arr (elems : List JValue)
  | obj (fields : List (String × JValue))

mutual

/-- The characters emitted by `json.dumps(·, sort_keys=True,
separators=(',', ':'), ensure_ascii=False)`.  Object entries are rendered
and then sorted by key; sorting before or after rendering is the same
list because the comparison only reads the key. -/
def ser : JValue → List Char
  | .null => "null".data
  | .bool true => "true".data
  | .bool false => "false".data
  | .num n => intReprChars n
  | .nan => "NaN".data
  | .inf => "Infinity".data
  | .ninf => "-Infinity".data
  | .str s => quoteChars s
  | .arr xs => '[' :: (intercalateComma (renderList xs) ++ [']'])
  | .obj fs =>
    '\x7b' :: (intercalateComma ((sortPairs (renderFields fs)).map entryOf) ++ ['\x7d'])

/-- Rendered array elements, in order. -/
def renderList : List JValue → List (List Char)
  | [] => []
  | v :: rest => ser v :: renderList rest

/-- Rendered object entries, still in insertion order. -/
def renderFields : List (String × JValue) → List (String × List Char)
  | [] => []
  | (k, v) :: rest => (k, ser v) :: renderFields rest

end

/-- Embeds `CanonicalJSONSerializer.serialize` (core.py lines 43-75). -/
def serialize (v : JValue) : String := ⟨ser v⟩

mutual

/-- Whether every object in the tree has pairwise-distinct keys — true of
every value arising from a Python `dict`. -/
def nodupKeysB : JValue → Bool
  | .arr xs => nodupKeysL xs
  | .obj fs => decide ((fs.map Prod.fst).Nodup) && nodupKeysF fs
  | _ => true

def nodupKeysL : List JValue → Bool
  | [] => true
  | v :: rest => nodupKeysB v && nodupKeysL rest

def nodupKeysF : List (String × JValue) → Bool
  | [] => true
  | (_, v) :: rest => nodupKeysB v && nodupKeysF rest

end

/-- Python truthiness of a JSON value (empty containers, `0`, `""`,
`False` and `None` are falsy). -/
def jTruthyB : JValue → Bool
  | .null => false
  | .bool b => b
  | .num n => n ≠ 0
  | .nan => true
  | .inf => true
  | .ninf => true
  | .str s => s ≠ ""
  | .arr xs => !xs.isEmpty
  | .obj fs => !fs.isEmpty

/-- Dictionary lookup `d[k]` / `d.get(k)` on the association-list model of
a Python `dict` (keys are unique in any real `dict`). -/
def jget (fs : List (String × JValue)) (k : String) : Option JValue :=
  (fs.find? (fun p => p.1 == k)).map (·.2)

mutual

/-- Logical equality of records as the specification states it: the same
keys and values, with the key insertion order permuted arbitrarily at any
nesting depth. -/
inductive KeyPerm : JValue → JValue → Prop where
  | refl (v : JValue) : KeyPerm v v
  | arrCons {x y : JValue} {xs ys : List JValue} :
      KeyPerm x y → KeyPerm (.arr xs) (.arr ys) →
      KeyPerm (.arr (x :: xs)) (.arr (y :: ys))
  | obj {fs gs hs : List (String × JValue)} :
      KeyPermFields fs gs → gs.Perm hs → KeyPerm (.obj fs) (.obj hs)

/-- Pointwise: the same keys in the same positions, values `KeyPerm`. -/
inductive KeyPermFields : List (String × JValue) → List (String × JValue) → Prop where
  | nil : KeyPermFields [] []
  | cons (k : String) {v w : JValue} {fs gs : List (String × JValue)} :
      KeyPerm v w → KeyPermFields fs gs →
      KeyPermFields ((k, v) :: fs) ((k, w) :: gs)

end

/-- Hexadecimal value of one character (as `bytes.fromhex` accepts,
both cases). -/
def hexValCh (c : Char) : Option Nat :=
  if 48 ≤ c.toNat ∧ c.toNat ≤ 57 then some (c.toNat - 48)
  else if 97 ≤ c.toNat ∧ c.toNat ≤ 102 then some (c.toNat - 87)
  else if 65 ≤ c.toNat ∧ c.toNat ≤ 70 then some (c.toNat - 55)
  else none

/-- Decode a `\u`-escape's four hex digits into a character. -/
def unescHex (d1 d2 d3 d4 : Char) : Option Char :=
  match hexValCh d1, hexValCh d2, hexValCh d3, hexValCh d4 with
  | some a, some b, some c3, some c4 =>
    some (Char.ofNat (((a * 16 + b) * 16 + c3) * 16 + c4))
  | _, _, _, _ => none

mutual

/-- Inverse of `escList` (partial): a plain character is kept, a
backslash starts an escape sequence. -/
def unescList : List Char → Option (List Char)
  | [] => some []
  | c :: rest =>
    if c = '\\' then unescEsc rest else (fun l => c :: l) <$> unescList rest

/-- Decode the characters following a backslash. -/
def unescEsc : List Char → Option (List Char)
  | '\"' :: rest => (fun l => '\"' :: l) <$> unescList rest
  | '\\' :: rest => (fun l => '\\' :: l) <$> unescList rest
  | 'b' :: rest => (fun l => '\x08' :: l) <$> unescList rest
  | 'f' :: rest => (fun l => '\x0c' :: l) <$> unescList rest
  | 'n' :: rest => (fun l => '\n' :: l) <$> unescList rest
  | 'r' :: rest => (fun l => '\x0d' :: l) <$> unescList rest
  | 't' :: rest => (fun l => '\t' :: l) <$> unescList rest
  | 'u' :: d1 :: d2 :: d3 :: d4 :: rest =>
    (match unescHex d1 d2 d3 d4 with
     | some ch => (fun l => ch :: l) <$> unescList rest
     | none => none)
  | _ => none

end

/-- The `resultado` dictionary built by `verificar_dual`
(pqc_hybrid.py lines 324-329). -/
structure ResultadoVD where
  ed25519_valido : Bool
  kyber_valido : Option Bool
  mensaje_ed25519 : String
  mensaje_kyber : String
deriving DecidableEq

/-- Exceptions raised by `verificar_dual`: `ValueError` for malformed
parameters (the spec's ValidationError), `RuntimeError` for a
cryptographic error other than `InvalidSignature` (the spec's
CryptoError). -/
inductive VerificarErr where
  | validationError (msg : String)
  | cryptoError (msg : String)
deriving DecidableEq

/-- Python truthiness of an optional byte string: present and non-empty. -/
def optTruthy (o : Option ByteSeq) : Bool :=
  match o with
  | some l => !l.isEmpty
  | none => false

/-- Embeds `HybridCryptoEngine.verificar_dual` (pqc_hybrid.py lines
287-360).  `prim` is the outcome of the library's Ed25519 verification
call (instantiated with `edPrim` for the honest model):
`InvalidSignature` becomes a normal `false` result, any other primitive
exception propagates as `RuntimeError`. -/
def verificarDual (prim : ByteSeq → ByteSeq → ByteSeq → EdOutcome)
    (mensajeCanonical : String) (dualSignature : DualSignature)
    (clavePublicaEd25519 : ByteSeq) : Except VerificarErr (Bool × ResultadoVD) :=
  if mensajeCanonical = "" then
    .error (.validationError "mensaje_canonical debe ser una cadena no vacía")
  else if dualSignature.signature_classic = [] then
    .error (.validationError "dual_signature debe contener signature_classic válida")
  else if clavePublicaEd25519 = [] ∨ clavePublicaEd25519.length ≠ 32 then
    .error (.validationError "clave_publica_ed25519 debe ser exactamente 32 bytes")
  else
    match prim clavePublicaEd25519 dualSignature.signature_classic
        (strBytes mensajeCanonical) with
    | .fault =>
      .error (.cryptoError "Error crítico en verificación Ed25519 (no se permite degradación silenciosa)")
    | outcome =>
      let edOk := outcome = EdOutcome.valid
      let kyberPresente := optTruthy dualSignature.pqc_seal &&
        optTruthy dualSignature.pqc_auth_tag
      let resultado : ResultadoVD :=
        { ed25519_valido := edOk
          kyber_valido := none
          mensaje_ed25519 :=
            if edOk then "Firma Ed25519 válida." else "Firma Ed25519 inválida."
          mensaje_kyber :=
            if kyberPresente then
              "Sello PQC presente. Requiere clave privada de auditor para verificar."
            else "Sello PQC no presente en esta firma." }
      .ok (resultado.ed25519_valido, resultado)

/-! ### Module 4: verificar_certificado_hibrido (src/aee/pqc_hybrid.py, lines 454-510)

The whole body runs inside `try: ... except Exception`, so every internal
exception is swallowed and turned into the returned dictionary with
`exitoso` still false and an `Error crítico` message.  Internal exceptions
are modelled with `Except String`; the outer handler is the final `match`.
The file hashing of lines 465-469 is external I/O, so the freshly computed
hash is an input. -/

/-- `bytes.fromhex` on a list of characters. -/
def hexPairs : List Char → Option ByteSeq
  | [] => some []
  | [_] => none
  | c1 :: c2 :: rest =>
    match hexValCh c1, hexValCh c2 with
    | some a, some b => (fun t => (a * 16 + b) :: t) <$> hexPairs rest
    | _, _ => none

/-- `bytes.fromhex` on a string (`none` models `ValueError`). -/
def hexDecode (s : String) : Option ByteSeq := hexPairs s.data

/-- The raw JSON value stored into the `DualSignature.timestamp` dataclass
field, rendered to a string (the field is never interpreted). -/
def tsRepr (v : JValue) : String :=
  match v with
  | .str s => s
  | v => serialize v

/-- Bracket access `d[k]`: `KeyError` when the key is missing. -/
def reqField (fs : List (String × JValue)) (k : String) : Except String JValue :=
  match jget fs k with
  | some v => .ok v
  | none => .error ("KeyError: " ++ k)

/-- `certificado.get(k, {})` followed by dictionary use of the result:
a present non-object value raises `TypeError` on its first subscript. -/
def objOrDefault (fs : List (String × JValue)) (k : String) :
    Except String (List (String × JValue)) :=
  match jget fs k with
  | none => .ok []
  | some (.obj gs) => .ok gs
  | some _ => .error ("TypeError: " ++ k)

/-- `bytes.fromhex(firmas_dict[k]) if firmas_dict.get(k) else None`
(pqc_hybrid.py lines 490-491): absent or falsy means no field; a truthy
non-string or invalid hex raises. -/
def optPqField (firmas : List (String × JValue)) (k : String) :
    Except String (Option ByteSeq) :=
  match jget firmas k with
  | none => .ok none
  | some v =>
    if jTruthyB v then
      match v with
      | .str s =>
        match hexDecode s with
        | some b => .ok (some b)
        | none => .error ("ValueError: fromhex " ++ k)
      | _ => .error ("TypeError: fromhex " ++ k)
    else .ok none

/-- The part of `verificar_certificado_hibrido` after the hash stage
(pqc_hybrid.py lines 476-498): reconstruct the signable payload, rebuild
the `DualSignature`, and run `verificar_dual`.  Any exception — including
the `ValueError`s that `verificar_dual` itself raises — propagates to the
caller's catch-all handler. -/
def vchSigStage (prim : ByteSeq → ByteSeq → ByteSeq → EdOutcome)
    (cert : List (String × JValue)) : Except String (Bool × ResultadoVD) := do
  let clavesPub ← objOrDefault cert "claves_publicas"
  let pubHexV ← reqField clavesPub "ed25519_public"
  let pubHex ← (match pubHexV with
    | .str s => Except.ok s
    | _ => Except.error "TypeError: fromhex ed25519_public")
  let clavePublica ← (match hexDecode pubHex with
    | some b => Except.ok b
    | none => Except.error "ValueError: fromhex ed25519_public")
  let v1 ← reqField cert "hash_sha256"
  let v2 ← reqField cert "timestamp_ntp"
  let v3 ← reqField cert "archivo"
  let v4 ← reqField cert "metadata"
  let v5 ← reqField cert "claves_publicas"
  let base := JValue.obj [("hash_sha256", v1), ("timestamp_ntp", v2),
    ("archivo", v3), ("metadata", v4), ("claves_publicas", v5)]
  let mensajeCanonical := serialize base
  let firmas ← objOrDefault cert "firmas"
  let sigV ← reqField firmas "signature_classic"
  let sigHex ← (match sigV with
    | .str s => Except.ok s
    | _ => Except.error "TypeError: fromhex signature_classic")
  let sigBytes ← (match hexDecode sigHex with
    | some b => Except.ok b
    | none => Except.error "ValueError: fromhex signature_classic")
  let pqcSeal ← optPqField firmas "pqc_seal"
  let pqcTag ← optPqField firmas "pqc_auth_tag"
  let tsV ← reqField firmas "timestamp"
  let ds : DualSignature :=
    { signature_classic := sigBytes, pqc_seal := pqcSeal,
      pqc_auth_tag := pqcTag, timestamp := tsRepr tsV }
  match verificarDual prim mensajeCanonical ds clavePublica with
  | .ok r => .ok r
  | .error (.validationError m) => .error m
  | .error (.cryptoError m) => .error m

/-- The `resultado` dictionary of `verificar_certificado_hibrido`
(pqc_hybrid.py line 461). -/
structure RCert where
  hash_ver : Option (Bool × String)
  firmas_ver : Option ResultadoVD
  exitoso : Bool
  mensaje : String
deriving DecidableEq

/-- `verificar_certificado_hibrido` after the hash comparison: record the
hash stage, short-circuit on mismatch, otherwise run the signature stage
with its catch-all exception handler (pqc_hybrid.py lines 470-510). -/
def vchAfterHash (prim : ByteSeq → ByteSeq → ByteSeq → EdOutcome)
    (hashOk : Bool) (cert : List (String × JValue)) : RCert :=
  if !hashOk then
    { hash_ver := some (false, "Hash del archivo NO coincide.")
      firmas_ver := none
      exitoso := false
      mensaje := "Fallo en verificación de hash del archivo." }
  else
    match vchSigStage prim cert with
    | .ok (b, det) =>
      { hash_ver := some (true, "Hash del archivo válido.")
        firmas_ver := some det
        exitoso := b
        mensaje :=
          if b then "Certificado válido (firma clásica Ed25519 verificada)."
          else "Certificado inválido (la firma clásica Ed25519 no es válida)." }
    | .error e =>
      { hash_ver := some (true, "Hash del archivo válido.")
        firmas_ver := none
        exitoso := false
        mensaje := "Error crítico en verificación: " ++ e }

/-- Embeds `verificar_certificado_hibrido` (pqc_hybrid.py lines 454-510).
`hashCalculado` is the freshly computed SHA-256 of the file; the stored
hash is read with `certificado.get('hash_sha256', '')` and compared with
`hmac.compare_digest`. -/
def verificarCertificadoHibrido (prim : ByteSeq → ByteSeq → ByteSeq → EdOutcome)
    (hashCalculado : String) (cert : List (String × JValue)) : RCert :=
  match jget cert "hash_sha256" with
  | some (.str h) => vchAfterHash prim (hashCalculado == h) cert
  | none => vchAfterHash prim (hashCalculado == "") cert
  | some _ =>
    { hash_ver := none, firmas_ver := none, exitoso := false
      mensaje := "Error crítico en verificación: TypeError" }

/-! ### Module 5: IntegrityVerifier (src/aee/core.py, lines 401-583)

`verificar_integridad_total` re-raises `FileNotFoundError` and
`ValueError` and wraps any other exception in `RuntimeError`; a stage
that merely fails returns the result dictionary normally. -/

/-- Exceptions `verificar_integridad_total` can raise. -/
inductive VitErr where
  | fileNotFound (msg : String)
  | valueError (msg : String)
  | runtimeError (msg : String)
  | attributeError (msg : String)
deriving DecidableEq

/-- The `resultados` dictionary of `verificar_integridad_total` (core.py
lines 513-520): per-stage outcomes appear only once their stage has run. -/
structure RVit where
  id_certificado : String
  hash_archivo : Option (Bool × String)
  sello_temporal : Option (Bool × String)
  firma_digital : Option (Bool × String)
  es_valido : Bool
  resumen : String
deriving DecidableEq

/-- Python `v < q` for a JSON value against a number (`none` models
`TypeError` for non-numeric operands; NaN compares false). -/
def jNumLt (v : JValue) (q : Rat) : Option Bool :=
  match v with
  | .num n => some (decide ((n : Rat) < q))
  | .bool b => some (decide ((if b then (1 : Rat) else 0) < q))
  | .nan => some false
  | .inf => some false
  | .ninf => some true
  | _ => none

/-- Python `v > q` for a JSON value against a number. -/
def jNumGt (v : JValue) (q : Rat) : Option Bool :=
  match v with
  | .num n => some (decide (q < (n : Rat)))
  | .bool b => some (decide (q < (if b then (1 : Rat) else 0)))
  | .nan => some false
  | .inf => some true
  | .ninf => some false
  | _ => none

/-- Embeds `IntegrityVerifier.verificar_timestamp_quorum` (core.py lines
435-459) as called by `verificar_integridad_total` (`max_age_hours=None`).
Its internal `try/except` turns every exception into a `false` result. -/
def verificarTimestampQuorum (td : JValue) : Bool × String :=
  match td with
  | .obj fs =>
    match jget fs "timestamp_unix", jget fs "servidores_exitosos",
        jget fs "desviacion_estandar_ms" with
    | some _, some se, some dev =>
      match jNumLt se 3 with
      | none => (false, "Error al verificar timestamp: TypeError")
      | some true => (false, "Quórum NTP insuficiente: menos de 3 servidores.")
      | some false =>
        match jNumGt dev 1000 with
        | none => (false, "Error al verificar timestamp: TypeError")
        | some true => (false, "Desviación estándar de NTP muy alta.")
        | some false => (true, "Timestamp de quórum NTP verificado correctamente.")
    | _, _, _ => (false, "Estructura de datos del timestamp inválida.")
  | _ => (false, "Error al verificar timestamp: TypeError")

/-- Embeds `IntegrityVerifier.verificar_firma_ed25519` (core.py lines
461-478): hex-decode key and signature, verify; `InvalidSignature` gives a
`false` result, any other exception is caught internally and also gives a
`false` result with an error message. -/
def verificarFirmaEd25519 (prim : ByteSeq → ByteSeq → ByteSeq → EdOutcome)
    (mensaje : ByteSeq) (firmaHex clavePublicaHex : JValue) : Bool × String :=
  match clavePublicaHex, firmaHex with
  | .str claveS, .str firmaS =>
    match hexDecode claveS with
    | none => (false, "Error en la validación criptográfica: ValueError")
    | some claveB =>
      match hexDecode firmaS with
      | none => (false, "Error en la validación criptográfica: ValueError")
      | some firmaB =>
        if claveB.length ≠ 32 then
          (false, "Error en la validación criptográfica: clave inválida")
        else
          match prim claveB firmaB mensaje with
          | .valid => (true, "Firma digital Ed25519 válida.")
          | .invalid => (false, "Firma digital Ed25519 inválida.")
          | .fault => (false, "Error en la validación criptográfica: fallo del primitivo")
  | _, _ => (false, "Error en la validación criptográfica: TypeError")

/-- Embeds `IntegrityVerifier.verificar_integridad_total` (core.py lines
480-583).  `fileExists` and `hashCalculado` abstract the file system; the
certificate is the parsed JSON dictionary.  The hash, timestamp and
signature stages run in order and fail fast: a failing stage returns the
result dictionary with the later stages absent. -/
def verificarIntegridadTotal (prim : ByteSeq → ByteSeq → ByteSeq → EdOutcome)
    (fileExists : Bool) (hashCalculado : String)
    (certificado : List (String × JValue)) : Except VitErr RVit :=
  if !fileExists then .error (.fileNotFound "Archivo no encontrado")
  else if certificado.isEmpty then
    .error (.valueError "certificado debe ser un diccionario válido")
  else
    match (match jget certificado "encabezado" with
      | none => Except.ok "N/A"
      | some (.obj fs) =>
        Except.ok (match jget fs "id_certificado" with
          | some (.str s) => s
          | some v => serialize v
          | none => "N/A")
      | some _ => Except.error (VitErr.attributeError "AttributeError: get")) with
    | .error e => .error e
    | .ok idc =>
      match (match jget certificado "evidencia" with
        | none => Except.ok ([] : List (String × JValue))
        | some (.obj evfs) => Except.ok evfs
        | some _ => Except.error (VitErr.runtimeError
            "Error crítico en verificación (no se permite degradación silenciosa)")) with
      | .error e => .error e
      | .ok evfs =>
        let hashOk :=
          match jget evfs "hash_sha256" with
          | some (.str s) => hashCalculado == s
          | none => hashCalculado == ""
          | some _ => false
        let hashMsg :=
          if hashOk then "Hash del archivo verificado correctamente."
          else "Hash no coincide."
        if !hashOk then
          .ok { id_certificado := idc, hash_archivo := some (false, hashMsg),
                sello_temporal := none, firma_digital := none, es_valido := false,
                resumen := "Fallo en verificación de hash del archivo." }
        else
          let sello := (jget certificado "sello_temporal").getD (.obj [])
          let ts := verificarTimestampQuorum sello
          if !ts.1 then
            .ok { id_certificado := idc, hash_archivo := some (true, hashMsg),
                  sello_temporal := some (false, ts.2), firma_digital := none,
                  es_valido := false,
                  resumen := "Fallo en verificación del sello temporal." }
          else
            match (match jget certificado "firma_digital" with
              | none => Except.ok ([] : List (String × JValue))
              | some (.obj fdfs) => Except.ok fdfs
              | some _ => Except.error (VitErr.runtimeError
                  "Error crítico en verificación (no se permite degradación silenciosa)")) with
            | .error e => .error e
            | .ok fdfs =>
              let payload := (jget fdfs "payload_firmado").getD (.obj [])
              if !(jTruthyB payload) then
                .error (.valueError "No se encontró el payload firmado en el certificado.")
              else
                let mensajeCanonico := strBytes (serialize payload)
                match (match jget certificado "auditor" with
                  | none => Except.ok ([] : List (String × JValue))
                  | some (.obj aufs) => Except.ok aufs
                  | some _ => Except.error (VitErr.runtimeError
                      "Error crítico en verificación (no se permite degradación silenciosa)")) with
                | .error e => .error e
                | .ok aufs =>
                  let firma := verificarFirmaEd25519 prim mensajeCanonico
                    ((jget fdfs "valor_hex").getD (.str ""))
                    ((jget aufs "clave_publica_hex").getD (.str ""))
                  if !firma.1 then
                    .ok { id_certificado := idc, hash_archivo := some (true, hashMsg),
                          sello_temporal := some (true, ts.2),
                          firma_digital := some (false, firma.2), es_valido := false,
                          resumen := "Fallo en verificación de la firma digital." }
                  else
                    .ok { id_certificado := idc, hash_archivo := some (true, hashMsg),
                          sello_temporal := some (true, ts.2),
                          firma_digital := some (true, firma.2), es_valido := true,
                          resumen := "VERIFICACIÓN EXITOSA: La evidencia es íntegra y auténtica." }

/-! ### Concrete sample inputs used when evaluating the model -/

/-- Three agreeing successful sources. -/
def respsOkSample : List NTPResponse :=
  [⟨"a", 1, 0, 0, true, none⟩, ⟨"b", 1, 0, 0, true, none⟩, ⟨"c", 1, 0, 0, true, none⟩]

/-- The consensus record produced on `respsOkSample`. -/
def recOkSample : ConsensusRecord :=
  { timestamp_unix := 1, timestamp_iso := isoRender 1, servidores_consultados := 3
    servidores_exitosos := 3, servidores_usados_consenso := 3
    desviacion_estandar_ms := 0
    detalle_servidores := [⟨"a", 1, 0, 0⟩, ⟨"b", 1, 0, 0⟩, ⟨"c", 1, 0, 0⟩] }

/-- Three successful sources, one an extreme outlier. -/
def respsOutlier : List NTPResponse :=
  [⟨"a", 0, 0, 0, true, none⟩, ⟨"b", 0, 0, 0, true, none⟩, ⟨"c", 10, 0, 0, true, none⟩]

/-! ## Theorems -/

/-! ### Auxiliary facts about the consensus algorithm -/

theorem medianSorted_isSome {s : List Rat} (h : s ≠ []) : ∃ m, medianSorted s = some m := by
  have h0 : s.length ≠ 0 := Nat.pos_iff_ne_zero.mp (List.length_pos.mpr h)
  have hpos : 0 < s.length := Nat.pos_of_ne_zero h0
  have hidx2 : s.length / 2 < s.length := Nat.div_lt_self hpos one_lt_two
  by_cases h1 : s.length % 2 = 1
  · exact ⟨s[s.length / 2], by simp [medianSorted, h0, h1, List.getElem?_eq_getElem hidx2]⟩
  · have hidx1 : s.length / 2 - 1 < s.length := lt_of_le_of_lt (Nat.sub_le _ _) hidx2
    exact ⟨(s[s.length / 2 - 1] + s[s.length / 2]) / 2, by
      simp [medianSorted, h0, h1, List.getElem?_eq_getElem hidx1,
        List.getElem?_eq_getElem hidx2]⟩

theorem medianQ_isSome {l : List Rat} (h : l ≠ []) : ∃ m, medianQ l = some m := by
  unfold medianQ
  apply medianSorted_isSome
  intro hnil
  exact h (List.eq_nil_of_length_eq_zero
    (by simpa [hnil] using ((List.perm_insertionSort (fun a b : Rat => a ≤ b) l).length_eq).symm))

theorem medianQ_ne_nil {l : List Rat} {m : Rat} (h : medianQ l = some m) : l ≠ [] := by
  intro hnil
  subst hnil
  simp [medianQ, medianSorted, List.insertionSort] at h

/-- **C3.** If fewer than `min_successful` sources respond successfully,
`obtener_timestamp_consenso` raises `RuntimeError` (the QuorumError of the
spec) and produces no consensus record; it never substitutes a local clock
reading, since the error is the only outcome. -/
theorem consenso_quorum_error (sqrtQ : Rat → Rat) (cfg : QuorumConfig)
    (responses : List NTPResponse)
    (h : (responses.filter (·.success)).length < cfg.minSuccessful) :
    obtenerTimestampConsenso sqrtQ cfg responses =
      .error (.quorum "Quórum NTP falló: insuficientes servidores respondieron") := by
  unfold obtenerTimestampConsenso
  simp [h]

theorem consenso_quorum_error_witness :
    ([NTPResponse.mk "a" 5 0 0 true none,
      NTPResponse.mk "b" 5 0 0 false (some "timeout")].filter (·.success)).length <
        (QuorumConfig.mk 500 3).minSuccessful ∧
    obtenerTimestampConsenso qSqrtApprox (QuorumConfig.mk 500 3)
        [NTPResponse.mk "a" 5 0 0 true none,
         NTPResponse.mk "b" 5 0 0 false (some "timeout")] =
      .error (.quorum "Quórum NTP falló: insuficientes servidores respondieron") :=
  ⟨by decide, consenso_quorum_error qSqrtApprox (QuorumConfig.mk 500 3) _ (by decide)⟩

/-- **C10.** Every consensus record actually returned satisfies the
counting invariants: quorum reached, successes bounded by consulted
sources, consensus set bounded by successes and non-empty, and one
diagnostic entry per successful source (outliers included). -/
theorem consenso_record_invariants (sqrtQ : Rat → Rat) (cfg : QuorumConfig)
    (responses : List NTPResponse) (rec : ConsensusRecord)
    (h : obtenerTimestampConsenso sqrtQ cfg responses = .ok rec) :
    cfg.minSuccessful ≤ rec.servidores_exitosos ∧
    rec.servidores_exitosos ≤ rec.servidores_consultados ∧
    rec.servidores_usados_consenso ≤ rec.servidores_exitosos ∧
    1 ≤ rec.servidores_usados_consenso ∧
    rec.detalle_servidores.length = rec.servidores_exitosos := by
  simp only [obtenerTimestampConsenso] at h
  split at h
  · simp at h
  · rename_i hmin
    split at h
    · simp at h
    · rename_i medInit hmedInit
      split at h
      · simp at h
      · rename_i medFinal hmedFinal
        simp only [Except.ok.injEq] at h
        subst h
        have hne := medianQ_ne_nil hmedFinal
        refine ⟨Nat.le_of_not_lt hmin, List.length_filter_le _ _, ?_, ?_, ?_⟩
        · show (if 3 ≤ _ then _ else _ : List Rat).length ≤ _
          split
          · split
            · simp
            · exact le_trans (List.length_filter_le _ _) (by simp)
          · simp
        · exact List.length_pos.mpr hne
        · simp

unseal Rat.mul Rat.add Rat.sub Rat.inv in
theorem consenso_record_invariants_witness :
    obtenerTimestampConsenso qSqrtApprox (QuorumConfig.mk 500 3) respsOkSample =
      .ok recOkSample ∧
    ((QuorumConfig.mk 500 3).minSuccessful ≤ recOkSample.servidores_exitosos ∧
     recOkSample.servidores_exitosos ≤ recOkSample.servidores_consultados ∧
     recOkSample.servidores_usados_consenso ≤ recOkSample.servidores_exitosos ∧
     1 ≤ recOkSample.servidores_usados_consenso ∧
     recOkSample.detalle_servidores.length = recOkSample.servidores_exitosos) :=
  ⟨by decide, consenso_record_invariants qSqrtApprox (QuorumConfig.mk 500 3)
    respsOkSample recOkSample (by decide)⟩

/-- **C4.** With at least `min_successful` successes and at least 3
readings: every reading farther than `max_deviation_ms` (in milliseconds)
from the initial median is discarded, unless that filtering would leave
fewer than `min_successful` readings, in which case the full set is
retained; the consensus timestamp is the median of the retained set. -/
theorem consenso_outlier_filtering (sqrtQ : Rat → Rat) (cfg : QuorumConfig)
    (responses : List NTPResponse) (medInit : Rat) (rec : ConsensusRecord)
    (hmed : medianQ ((responses.filter (·.success)).map (·.timestamp)) = some medInit)
    (h3 : 3 ≤ ((responses.filter (·.success)).map (·.timestamp)).length)
    (h : obtenerTimestampConsenso sqrtQ cfg responses = .ok rec) :
    let timestamps := (responses.filter (·.success)).map (·.timestamp)
    let filtered := timestamps.filter
      (fun ts => |ts - medInit| * 1000 ≤ cfg.maxDeviationMs)
    let retained := if filtered.length < cfg.minSuccessful then timestamps else filtered
    medianQ retained = some rec.timestamp_unix ∧
    rec.servidores_usados_consenso = retained.length := by
  intro timestamps filtered retained
  simp only [obtenerTimestampConsenso] at h
  split at h
  · simp at h
  · split at h
    · simp at h
    · rename_i medInit' hmedInit'
      rw [hmed] at hmedInit'
      obtain rfl : medInit = medInit' := Option.some.inj hmedInit'
      split at h
      · simp at h
      · rename_i medFinal hmedFinal
        simp only [Except.ok.injEq] at h
        subst h
        exact ⟨hmedFinal, rfl⟩

unseal Rat.mul Rat.add Rat.sub Rat.inv in
theorem consenso_outlier_filtering_witness :
    medianQ ((respsOkSample.filter (·.success)).map (·.timestamp)) = some 1 ∧
    3 ≤ ((respsOkSample.filter (·.success)).map (·.timestamp)).length ∧
    obtenerTimestampConsenso qSqrtApprox (QuorumConfig.mk 500 3) respsOkSample =
      .ok recOkSample ∧
    (let timestamps := (respsOkSample.filter (·.success)).map (·.timestamp)
     let filtered := timestamps.filter
       (fun ts => |ts - (1 : Rat)| * 1000 ≤ (QuorumConfig.mk 500 3).maxDeviationMs)
     let retained := if filtered.length < (QuorumConfig.mk 500 3).minSuccessful
       then timestamps else filtered
     medianQ retained = some recOkSample.timestamp_unix ∧
     recOkSample.servidores_usados_consenso = retained.length) :=
  ⟨by decide, by decide, by decide,
   consenso_outlier_filtering qSqrtApprox (QuorumConfig.mk 500 3) respsOkSample 1
     recOkSample (by decide) (by decide) (by decide)⟩

/-- **C8 (amended).** The reported `desviacion_estandar_ms` equals the
standard deviation, in milliseconds and rounded to two decimals, of the
**full** set of successful readings, computed *before* outlier filtering
(and `0.0` when fewer than 3 readings succeeded) — not the standard
deviation of the retained set. -/
theorem consenso_stdev_prefilter (sqrtQ : Rat → Rat) (cfg : QuorumConfig)
    (responses : List NTPResponse) (rec : ConsensusRecord)
    (h : obtenerTimestampConsenso sqrtQ cfg responses = .ok rec) :
    rec.desviacion_estandar_ms =
      if 3 ≤ ((responses.filter (·.success)).map (·.timestamp)).length
      then roundTo2
        (sqrtQ (sampleVarQ ((responses.filter (·.success)).map (·.timestamp))) * 1000)
      else 0 := by
  simp only [obtenerTimestampConsenso] at h
  split at h
  · simp at h
  · split at h
    · simp at h
    · split at h
      · simp at h
      · simp only [Except.ok.injEq] at h
        subst h
        rfl

unseal Rat.mul Rat.add Rat.sub Rat.inv in
theorem consenso_stdev_prefilter_witness :
    obtenerTimestampConsenso qSqrtApprox (QuorumConfig.mk 500 2) respsOutlier =
      .ok { timestamp_unix := 0, timestamp_iso := isoRender 0
            servidores_consultados := 3, servidores_exitosos := 3
            servidores_usados_consenso := 2, desviacion_estandar_ms := 5773
            detalle_servidores := [⟨"a", 0, 0, 0⟩, ⟨"b", 0, 0, 0⟩, ⟨"c", 10, 0, 0⟩] } ∧
    (5773 : Rat) =
      if 3 ≤ ((respsOutlier.filter (·.success)).map (·.timestamp)).length
      then roundTo2
        (qSqrtApprox (sampleVarQ ((respsOutlier.filter (·.success)).map (·.timestamp))) * 1000)
      else 0 :=
  ⟨by decide, consenso_stdev_prefilter qSqrtApprox (QuorumConfig.mk 500 2) respsOutlier
    { timestamp_unix := 0, timestamp_iso := isoRender 0
      servidores_consultados := 3, servidores_exitosos := 3
      servidores_usados_consenso := 2, desviacion_estandar_ms := 5773
      detalle_servidores := [⟨"a", 0, 0, 0⟩, ⟨"b", 0, 0, 0⟩, ⟨"c", 10, 0, 0⟩] }
    (by decide)⟩

unseal Rat.mul Rat.add Rat.sub Rat.inv in
/-- **C8 counterexample.** On three successful readings `[0, 0, 10]` with
`max_deviation_ms = 500` and `min_successful = 2`, the outlier `10` is
discarded (2 readings retained, whose standard deviation is 0 ms), yet the
record reports `desviacion_estandar_ms = 5773 ≠ 0`: the reported value is
the standard deviation of the pre-filter set, contradicting the claim. -/
theorem consenso_stdev_counterexample :
    (obtenerTimestampConsenso qSqrtApprox (QuorumConfig.mk 500 2) respsOutlier).map
        (fun r => (r.servidores_usados_consenso, r.desviacion_estandar_ms)) =
      .ok (2, 5773) ∧
    roundTo2 (qSqrtApprox (sampleVarQ [0, 0]) * 1000) = 0 ∧ (5773 : Rat) ≠ 0 := by
  refine ⟨by decide, by decide, by decide⟩

/-! ### Auxiliary facts about the idealized Ed25519 model -/

theorem privOfPub_pubOf (p : ByteSeq) : privOfPub (pubOf p) = p := by
  simp [privOfPub, pubOf, List.map_map, Function.comp_def]

theorem length_pubOf (p : ByteSeq) : (pubOf p).length = p.length := by
  simp [pubOf]

/-- Evaluation of `verificar_dual` on an honestly signed message under the
idealized primitive. -/
theorem verificarDual_edPrim_honest (msg : String) (hm : ¬msg = "") (priv : ByteSeq)
    (hlen : priv.length = 32) (sealO tagO : Option ByteSeq) (now : String) :
    verificarDual edPrim msg
        { signature_classic := edSign priv (strBytes msg), pqc_seal := sealO,
          pqc_auth_tag := tagO, timestamp := now } (pubOf priv) =
      .ok (true,
        { ed25519_valido := true, kyber_valido := none
          mensaje_ed25519 := "Firma Ed25519 válida."
          mensaje_kyber :=
            if optTruthy sealO && optTruthy tagO then
              "Sello PQC presente. Requiere clave privada de auditor para verificar."
            else "Sello PQC no presente en esta firma." }) := by
  have hpubne : ¬(pubOf priv = [] ∨ (pubOf priv).length ≠ 32) := by
    rintro (h1 | h2)
    · have := congrArg List.length h1
      rw [length_pubOf, hlen] at this
      simp at this
    · exact h2 (by rw [length_pubOf, hlen])
  simp [verificarDual, hm, edSign, hpubne, edPrim, privOfPub_pubOf]

/-- **C1.** (a) A dual signature honestly produced by `firmar_dual` with a
well-formed classical key pair verifies as `true` under `verificar_dual`
against the classical public key; (b) the overall boolean equals the
classical result recorded in the detail dictionary; (c) the post-quantum
fields never influence the overall boolean. -/
theorem firmar_verificar_dual :
    (∀ (kyb : Bool) (encaps : Encaps) (now msg : String) (kp : HybridKeyPair)
        (ds : DualSignature),
        kp.ed25519_private.length = 32 →
        kp.ed25519_public = pubOf kp.ed25519_private →
        firmarDual kyb encaps now msg kp = .ok ds →
        ∃ r, verificarDual edPrim msg ds kp.ed25519_public = .ok (true, r) ∧
          r.ed25519_valido = true) ∧
    (∀ prim msg ds pub b r, verificarDual prim msg ds pub = .ok (b, r) →
        b = r.ed25519_valido) ∧
    (∀ prim msg ds pub sealO tagO,
        (verificarDual prim msg
            { ds with pqc_seal := sealO, pqc_auth_tag := tagO } pub).map Prod.fst =
          (verificarDual prim msg ds pub).map Prod.fst) := by
  refine ⟨?_, ?_, ?_⟩
  · intro kyb encaps now msg kp ds hlen hpub hok
    have hpubne : ¬(kp.ed25519_public = [] ∨ kp.ed25519_public.length ≠ 32) := by
      rintro (h1 | h2)
      · rw [hpub] at h1
        have := congrArg List.length h1
        rw [length_pubOf, hlen] at this
        simp at this
      · exact h2 (by rw [hpub, length_pubOf, hlen])
    simp only [firmarDual] at hok
    split at hok
    · simp at hok
    · split at hok
      · simp at hok
      · split at hok
        · simp at hok
        · rename_i hmsg hpriv hlen'
          rw [hpub]
          split at hok <;>
            (simp only [Except.ok.injEq] at hok
             subst hok
             exact ⟨_, verificarDual_edPrim_honest msg hmsg kp.ed25519_private hlen _ _ now,
               rfl⟩)
  · intro prim msg ds pub b r h
    simp only [verificarDual] at h
    split at h
    · simp at h
    · split at h
      · simp at h
      · split at h
        · simp at h
        · split at h
          · simp at h
          · simp only [Except.ok.injEq, Prod.mk.injEq] at h
            obtain ⟨hb, hr⟩ := h
            subst hb
            subst hr
            rfl
  · intro prim msg ds pub sealO tagO
    obtain ⟨sc, s0, t0, ts⟩ := ds
    by_cases hm : msg = ""
    · simp [verificarDual, hm]
    · by_cases hs : sc = []
      · simp [verificarDual, hm, hs]
      · by_cases hp : pub = [] ∨ pub.length ≠ 32
        · simp [verificarDual, hm, hs, hp]
        · simp only [verificarDual, hm, hs, hp]
          cases prim pub sc (strBytes msg) <;> simp [Except.map]

theorem firmar_verificar_dual_witness :
    (List.replicate 32 7 : ByteSeq).length = 32 ∧
    pubOf (List.replicate 32 7) = pubOf (List.replicate 32 7) ∧
    firmarDual false (fun _ => none) "t" "m"
      ⟨List.replicate 32 7, pubOf (List.replicate 32 7), [], [], "c", "id"⟩ =
      .ok { signature_classic := edSign (List.replicate 32 7) (strBytes "m"),
            pqc_seal := none, pqc_auth_tag := none, timestamp := "t" } ∧
    (∃ r, verificarDual edPrim "m"
        { signature_classic := edSign (List.replicate 32 7) (strBytes "m"),
          pqc_seal := none, pqc_auth_tag := none, timestamp := "t" }
        (pubOf (List.replicate 32 7)) = .ok (true, r) ∧ r.ed25519_valido = true) :=
  ⟨by decide, rfl, by decide,
   firmar_verificar_dual.1 false (fun _ => none) "t" "m"
     ⟨List.replicate 32 7, pubOf (List.replicate 32 7), [], [], "c", "id"⟩
     { signature_classic := edSign (List.replicate 32 7) (strBytes "m"),
       pqc_seal := none, pqc_auth_tag := none, timestamp := "t" }
     (by decide) rfl (by decide)⟩

/-- **C5.** (a) A classical-signature failure (here: a malformed private
key, on which `Ed25519PrivateKey.from_private_bytes` raises) makes
`firmar_dual` raise `RuntimeError` (the spec's SigningError) and return no
`DualSignature`; (b) a failure confined to the optional post-quantum layer
does not raise, and the returned signature has both post-quantum fields
absent; (c) every returned `DualSignature` has a non-empty classical
signature, and its post-quantum seal and tag are both present or both
absent. -/
theorem firmar_dual_error_discipline :
    (∀ (kyb : Bool) (encaps : Encaps) (now msg : String) (kp : HybridKeyPair),
        msg ≠ "" → kp.ed25519_private ≠ [] → kp.ed25519_private.length ≠ 32 →
        firmarDual kyb encaps now msg kp =
          .error (.signingError
            "Error en firma Ed25519 (no se permite degradación silenciosa)")) ∧
    (∀ (kyb : Bool) (now msg : String) (kp : HybridKeyPair),
        msg ≠ "" → kp.ed25519_private.length = 32 →
        firmarDual kyb (fun _ => none) now msg kp =
          .ok { signature_classic := edSign kp.ed25519_private (strBytes msg),
                pqc_seal := none, pqc_auth_tag := none, timestamp := now }) ∧
    (∀ (kyb : Bool) (encaps : Encaps) (now msg : String) (kp : HybridKeyPair)
        (ds : DualSignature),
        firmarDual kyb encaps now msg kp = .ok ds →
        ds.signature_classic ≠ [] ∧ (ds.pqc_seal.isSome ↔ ds.pqc_auth_tag.isSome)) := by
  refine ⟨?_, ?_, ?_⟩
  · intro kyb encaps now msg kp hm hpriv hlen
    simp [firmarDual, hm, hpriv, hlen]
  · intro kyb now msg kp hm hlen
    have hpriv : kp.ed25519_private ≠ [] := by
      intro h0
      rw [h0] at hlen
      simp at hlen
    have hlen' : ¬kp.ed25519_private.length ≠ 32 := by omega
    simp [firmarDual, hm, hpriv, hlen', encapsularHibrido]
  · intro kyb encaps now msg kp ds hok
    simp only [firmarDual] at hok
    split at hok
    · simp at hok
    · split at hok
      · simp at hok
      · split at hok
        · simp at hok
        · split at hok <;>
            (simp only [Except.ok.injEq] at hok
             subst hok
             exact ⟨by simp [edSign], by simp⟩)

theorem firmar_dual_error_discipline_witness :
    ("m" : String) ≠ "" ∧ ([1, 2] : ByteSeq) ≠ [] ∧ ([1, 2] : ByteSeq).length ≠ 32 ∧
    firmarDual true (fun _ => none) "t" "m" ⟨[1, 2], pubOf [1, 2], [], [9], "c", "id"⟩ =
      .error (.signingError
        "Error en firma Ed25519 (no se permite degradación silenciosa)") ∧
    firmarDual true (fun _ => none) "t" "m"
        ⟨List.replicate 32 7, pubOf (List.replicate 32 7), [], [9], "c", "id"⟩ =
      .ok { signature_classic := edSign (List.replicate 32 7) (strBytes "m"),
            pqc_seal := none, pqc_auth_tag := none, timestamp := "t" } :=
  ⟨by decide, by decide, by decide,
   firmar_dual_error_discipline.1 true (fun _ => none) "t" "m"
     ⟨[1, 2], pubOf [1, 2], [], [9], "c", "id"⟩ (by decide) (by decide) (by decide),
   firmar_dual_error_discipline.2.1 true "t" "m"
     ⟨List.replicate 32 7, pubOf (List.replicate 32 7), [], [9], "c", "id"⟩
     (by decide) (by decide)⟩

/-- **C6 (amended).** At the `verificar_dual` level the claim's taxonomy
holds: an empty payload, an empty classical signature, or a public key not
exactly 32 bytes raise `ValueError` (ValidationError); an invalid
signature is a normal `false` result with a descriptive message; any other
primitive fault raises `RuntimeError` (CryptoError).  But a certificate
with missing fields does **not** raise: `verificar_certificado_hibrido`
catches every internal exception — including those `ValueError`s — and
returns a result with `exitoso = false` and an `Error crítico` message. -/
theorem verificar_error_taxonomy :
    (∀ prim ds pub, verificarDual prim "" ds pub =
        .error (.validationError "mensaje_canonical debe ser una cadena no vacía")) ∧
    (∀ prim (msg : String) ds pub, msg ≠ "" → ds.signature_classic = [] →
        verificarDual prim msg ds pub =
          .error (.validationError "dual_signature debe contener signature_classic válida")) ∧
    (∀ prim (msg : String) ds pub, msg ≠ "" → ds.signature_classic ≠ [] →
        pub.length ≠ 32 →
        verificarDual prim msg ds pub =
          .error (.validationError "clave_publica_ed25519 debe ser exactamente 32 bytes")) ∧
    (∀ prim (msg : String) ds (pub : ByteSeq), msg ≠ "" → ds.signature_classic ≠ [] →
        ¬(pub = [] ∨ pub.length ≠ 32) →
        prim pub ds.signature_classic (strBytes msg) = .invalid →
        ∃ r, verificarDual prim msg ds pub = .ok (false, r) ∧
          r.mensaje_ed25519 = "Firma Ed25519 inválida.") ∧
    (∀ prim (msg : String) ds (pub : ByteSeq), msg ≠ "" → ds.signature_classic ≠ [] →
        ¬(pub = [] ∨ pub.length ≠ 32) →
        prim pub ds.signature_classic (strBytes msg) = .fault →
        verificarDual prim msg ds pub = .error (.cryptoError
          "Error crítico en verificación Ed25519 (no se permite degradación silenciosa)")) ∧
    (∀ prim (hashCalc : String) cert e,
        jget cert "hash_sha256" = some (.str hashCalc) →
        vchSigStage prim cert = .error e →
        verificarCertificadoHibrido prim hashCalc cert =
          { hash_ver := some (true, "Hash del archivo válido."), firmas_ver := none,
            exitoso := false, mensaje := "Error crítico en verificación: " ++ e }) := by
  refine ⟨?_, ?_, ?_, ?_, ?_, ?_⟩
  · intro prim ds pub
    simp [verificarDual]
  · intro prim msg ds pub hm hs
    simp [verificarDual, hm, hs]
  · intro prim msg ds pub hm hs hp
    simp [verificarDual, hm, hs, hp]
  · intro prim msg ds pub hm hs hp hinv
    simp only [verificarDual, if_neg hm, if_neg hs, if_neg hp, hinv]
    exact ⟨_, rfl, rfl⟩
  · intro prim msg ds pub hm hs hp hflt
    simp only [verificarDual, if_neg hm, if_neg hs, if_neg hp, hflt]
  · intro prim hashCalc cert e hjget hstage
    simp [verificarCertificadoHibrido, hjget, vchAfterHash, hstage]

/-- **C6 counterexample.** On a certificate whose stored hash matches but
which lacks the `claves_publicas.ed25519_public` field, the claim says
verification raises ValidationError; the code instead catches the
`KeyError` and *returns* a result with `exitoso = false` and an
`Error crítico` message. -/
theorem verificar_certificado_counterexample :
    verificarCertificadoHibrido edPrim "aa" [("hash_sha256", JValue.str "aa")] =
      { hash_ver := some (true, "Hash del archivo válido."), firmas_ver := none,
        exitoso := false,
        mensaje := "Error crítico en verificación: KeyError: ed25519_public" } := by
  decide

theorem verificar_error_taxonomy_witness :
    verificarDual edPrim "" ⟨[1], none, none, "t"⟩ [] =
      .error (.validationError "mensaje_canonical debe ser una cadena no vacía") ∧
    verificarDual edPrim "m" ⟨[], none, none, "t"⟩ [] =
      .error (.validationError "dual_signature debe contener signature_classic válida") ∧
    verificarDual edPrim "m" ⟨[1], none, none, "t"⟩ [5] =
      .error (.validationError "clave_publica_ed25519 debe ser exactamente 32 bytes") ∧
    (∃ r, verificarDual edPrim "m" ⟨[1], none, none, "t"⟩ (List.replicate 32 9) =
        .ok (false, r) ∧ r.mensaje_ed25519 = "Firma Ed25519 inválida.") ∧
    verificarDual (fun _ _ _ => .fault) "m" ⟨[1], none, none, "t"⟩ (List.replicate 32 9) =
      .error (.cryptoError
        "Error crítico en verificación Ed25519 (no se permite degradación silenciosa)") ∧
    vchSigStage edPrim [("hash_sha256", JValue.str "aa")] =
      .error "KeyError: ed25519_public" ∧
    verificarCertificadoHibrido edPrim "aa" [("hash_sha256", JValue.str "aa")] =
      { hash_ver := some (true, "Hash del archivo válido."), firmas_ver := none,
        exitoso := false,
        mensaje := "Error crítico en verificación: KeyError: ed25519_public" } :=
  ⟨verificar_error_taxonomy.1 edPrim ⟨[1], none, none, "t"⟩ [],
   verificar_error_taxonomy.2.1 edPrim "m" ⟨[], none, none, "t"⟩ [] (by decide) rfl,
   verificar_error_taxonomy.2.2.1 edPrim "m" ⟨[1], none, none, "t"⟩ [5] (by decide) (by decide)
     (by decide),
   verificar_error_taxonomy.2.2.2.1 edPrim "m" ⟨[1], none, none, "t"⟩ (List.replicate 32 9)
     (by decide) (by decide) (by decide) (by decide),
   verificar_error_taxonomy.2.2.2.2.1 (fun _ _ _ => .fault) "m" ⟨[1], none, none, "t"⟩
     (List.replicate 32 9) (by decide) (by decide) (by decide) rfl,
   by decide,
   verificar_error_taxonomy.2.2.2.2.2 edPrim "aa" [("hash_sha256", JValue.str "aa")]
     "KeyError: ed25519_public" rfl (by decide)⟩

/-- **C7 (amended).** When the fresh file hash differs from the stored
hash, `verificar_integridad_total` returns overall success `false` with
the hash stage marked failing — and it short-circuits: the
timestamp-plausibility and signature stages are **not** evaluated and are
absent from the verification result (fail-fast, per the code and §4.5 of
the spec, contrary to the claim's "still evaluated"). -/
theorem vit_hash_failfast (prim : ByteSeq → ByteSeq → ByteSeq → EdOutcome)
    (fileExists : Bool) (hashCalculado : String) (cert : List (String × JValue))
    (r : RVit) (m : String)
    (h : verificarIntegridadTotal prim fileExists hashCalculado cert = .ok r)
    (hh : r.hash_archivo = some (false, m)) :
    r.es_valido = false ∧ r.sello_temporal = none ∧ r.firma_digital = none ∧
    r.resumen = "Fallo en verificación de hash del archivo." := by
  simp only [verificarIntegridadTotal] at h
  repeat' split at h
  all_goals try exact Except.noConfusion h
  all_goals
    rw [Except.ok.injEq] at h
    subst h
    first
      | exact ⟨rfl, rfl, rfl, rfl⟩
      | simp at hh

/-- **C7 counterexample.** Verifying a certificate whose stored hash is
`"aa"` against the fresh hash `"bb"`: overall success is `false` and the
hash stage fails, but the timestamp and signature stages are *absent* from
the result — they were never evaluated, contradicting the claim that they
are still evaluated and reported. -/
theorem vit_hash_failfast_counterexample :
    verificarIntegridadTotal edPrim true "bb"
        [("evidencia", JValue.obj [("hash_sha256", JValue.str "aa")])] =
      .ok { id_certificado := "N/A", hash_archivo := some (false, "Hash no coincide."),
            sello_temporal := none, firma_digital := none, es_valido := false,
            resumen := "Fallo en verificación de hash del archivo." } := by
  decide

theorem vit_hash_failfast_witness :
    verificarIntegridadTotal edPrim true "bb"
        [("evidencia", JValue.obj [("hash_sha256", JValue.str "aa")])] =
      .ok { id_certificado := "N/A", hash_archivo := some (false, "Hash no coincide."),
            sello_temporal := none, firma_digital := none, es_valido := false,
            resumen := "Fallo en verificación de hash del archivo." } ∧
    ((RVit.mk "N/A" (some (false, "Hash no coincide.")) none none false
        "Fallo en verificación de hash del archivo.").es_valido = false ∧
     (RVit.mk "N/A" (some (false, "Hash no coincide.")) none none false
        "Fallo en verificación de hash del archivo.").sello_temporal = none ∧
     (RVit.mk "N/A" (some (false, "Hash no coincide.")) none none false
        "Fallo en verificación de hash del archivo.").firma_digital = none ∧
     (RVit.mk "N/A" (some (false, "Hash no coincide.")) none none false
        "Fallo en verificación de hash del archivo.").resumen =
       "Fallo en verificación de hash del archivo.") :=
  ⟨by decide,
   vit_hash_failfast edPrim true "bb"
     [("evidencia", JValue.obj [("hash_sha256", JValue.str "aa")])]
     (RVit.mk "N/A" (some (false, "Hash no coincide.")) none none false
       "Fallo en verificación de hash del archivo.") "Hash no coincide."
     (by decide) rfl⟩

/-! ### Injectivity of the canonical serializer: decimal digits -/

theorem digitCh_range : ∀ n, n < 10 → 48 ≤ (digitCh n).toNat ∧ (digitCh n).toNat ≤ 57 := by
  decide

theorem natDigitsGo_mem_digit :
    ∀ fuel n c, c ∈ natDigitsGo fuel n → 48 ≤ c.toNat ∧ c.toNat ≤ 57 := by
  intro fuel
  induction fuel with
  | zero =>
    intro n c hc
    simp only [natDigitsGo, List.mem_singleton] at hc
    subst hc
    exact digitCh_range _ (Nat.mod_lt _ (by omega))
  | succ fuel ih =>
    intro n c hc
    by_cases h10 : n < 10
    · simp only [natDigitsGo, if_pos h10, List.mem_singleton] at hc
      subst hc
      exact digitCh_range _ h10
    · simp only [natDigitsGo, if_neg h10, List.mem_append, List.mem_singleton] at hc
      rcases hc with hc | hc
      · exact ih _ _ hc
      · subst hc
        exact digitCh_range _ (Nat.mod_lt _ (by omega))

theorem natDigits_head :
    ∀ n, ∃ c t, natDigits n = c :: t ∧ 48 ≤ c.toNat ∧ c.toNat ≤ 57 := by
  intro n
  have hne : natDigits n ≠ [] := by
    show natDigitsGo n n ≠ []
    cases n with
    | zero => simp [natDigitsGo]
    | succ m =>
      simp only [natDigitsGo]
      split <;> simp
  obtain ⟨c, t, hct⟩ := List.exists_cons_of_ne_nil hne
  refine ⟨c, t, hct, natDigitsGo_mem_digit n n c ?_⟩
  rw [show natDigitsGo n n = natDigits n from rfl, hct]
  exact List.mem_cons_self c t

theorem intRepr_head (i : Int) :
    ∃ c t, intReprChars i = c :: t ∧ (c.toNat = 45 ∨ (48 ≤ c.toNat ∧ c.toNat ≤ 57)) := by
  unfold intReprChars
  split
  · exact ⟨'-', _, rfl, Or.inl (by decide)⟩
  · obtain ⟨c, t, hct, h1, h2⟩ := natDigits_head i.toNat
    exact ⟨c, t, hct, Or.inr ⟨h1, h2⟩⟩

theorem ser_arr_def (xs : List JValue) :
    ser (.arr xs) = '[' :: (intercalateComma (renderList xs) ++ [']']) := rfl

theorem ser_obj_def (fs : List (String × JValue)) :
    ser (.obj fs) =
      '\x7b' :: (intercalateComma ((sortPairs (renderFields fs)).map entryOf) ++ ['\x7d']) :=
  rfl

theorem wrap_inj {o c : Char} {a b : List Char} (h : o :: (a ++ [c]) = o :: (b ++ [c])) :
    a = b := by
  obtain ⟨-, h2⟩ := List.cons.inj h
  exact List.append_cancel_right h2

theorem renderFields_eq_map :
    ∀ fs : List (String × JValue), renderFields fs = fs.map (fun p => (p.1, ser p.2)) := by
  intro fs
  induction fs with
  | nil => rfl
  | cons p rest ih =>
    obtain ⟨k, v⟩ := p
    rw [renderFields, ih, List.map_cons]

theorem ser_ne_nil : ∀ v : JValue, ser v ≠ [] := by
  intro v
  cases v with
  | num n =>
    show intReprChars n ≠ []
    obtain ⟨c, t, hct, -⟩ := intRepr_head n
    simp [hct]
  | bool b => cases b <;> simp [ser]
  | arr xs => simp [ser_arr_def]
  | obj fs => simp [ser_obj_def]
  | str s => simp [ser, quoteChars]
  | null => simp [ser]
  | nan => simp [ser]
  | inf => simp [ser]
  | ninf => simp [ser]

theorem ic_cons_ne_nil (x : List Char) (L : List (List Char)) (h : L ≠ []) :
    intercalateComma (x :: L) = x ++ ',' :: intercalateComma L := by
  cases L with
  | nil => exact absurd rfl h
  | cons y rest => rfl

theorem renderList_nil_iff (xs : List JValue) : renderList xs = [] ↔ xs = [] := by
  cases xs <;> simp [renderList]

theorem ic_renderList_ne_nil (y : JValue) (ys : List JValue) :
    intercalateComma (renderList (y :: ys)) ≠ [] := by
  rw [renderList]
  cases hys : renderList ys with
  | nil => simpa [intercalateComma] using ser_ne_nil y
  | cons b bs =>
    rw [ic_cons_ne_nil (ser y) (b :: bs) (by simp)]
    simp [List.append_ne_nil_of_right_ne_nil]

/-! ### Sorting of rendered object entries -/

theorem sortPairs_perm (l : List (String × List Char)) : (sortPairs l).Perm l :=
  List.perm_insertionSort keyLe l

theorem sortPairs_sorted (l : List (String × List Char)) : List.Sorted keyLe (sortPairs l) :=
  List.sorted_insertionSort keyLe l

theorem pairwise_map_fst {α β : Type} {R : α → α → Prop} {l : List (α × β)} :
    (l.map Prod.fst).Pairwise R ↔ l.Pairwise (fun a b => R a.1 b.1) :=
  List.pairwise_map

theorem sorted_strict_of_nodup {l : List (String × List Char)}
    (hs : List.Sorted keyLe l) (hn : (l.map Prod.fst).Nodup) : List.Sorted keyLt l := by
  have hp : l.Pairwise (fun a b => a.1 ≠ b.1) := pairwise_map_fst.mp hn
  exact (hs.and hp).imp fun h => lt_of_le_of_ne h.1 h.2

theorem sortPairs_sorted_strict (l : List (String × List Char))
    (hn : (l.map Prod.fst).Nodup) : List.Sorted keyLt (sortPairs l) :=
  sorted_strict_of_nodup (sortPairs_sorted l)
    (((sortPairs_perm l).map Prod.fst).nodup_iff.mpr hn)

theorem sortPairs_congr_perm {l₁ l₂ : List (String × List Char)} (hperm : l₁.Perm l₂)
    (hn : (l₁.map Prod.fst).Nodup) : sortPairs l₁ = sortPairs l₂ := by
  have hn₂ : (l₂.map Prod.fst).Nodup := ((hperm.map Prod.fst).nodup_iff).mp hn
  exact List.eq_of_perm_of_sorted
    ((sortPairs_perm l₁).trans (hperm.trans (sortPairs_perm l₂).symm))
    (sortPairs_sorted_strict l₁ hn) (sortPairs_sorted_strict l₂ hn₂)

theorem keyPermFields_keys : ∀ {fs gs : List (String × JValue)}, KeyPermFields fs gs →
    fs.map Prod.fst = gs.map Prod.fst
  | _, _, .nil => rfl
  | _, _, .cons k hv hrest => by
    rw [List.map_cons, List.map_cons, keyPermFields_keys hrest]

theorem ic_renderList_cons_congr {x y : JValue} {xs ys : List JValue}
    (hxy : ser x = ser y)
    (hic : intercalateComma (renderList xs) = intercalateComma (renderList ys)) :
    intercalateComma (renderList (x :: xs)) = intercalateComma (renderList (y :: ys)) := by
  rw [renderList, renderList]
  cases hxs : renderList xs with
  | nil =>
    cases hys : renderList ys with
    | nil => simp [intercalateComma, hxy]
    | cons b bs =>
      exfalso
      rw [hxs, hys] at hic
      have hys_ne : ys ≠ [] := by
        intro h0
        rw [h0] at hys
        simp [renderList] at hys
      obtain ⟨y', ys', rfl⟩ := List.exists_cons_of_ne_nil hys_ne
      exact ic_renderList_ne_nil y' ys' (by rw [hys, ← hic]; rfl)
  | cons a as =>
    cases hys : renderList ys with
    | nil =>
      exfalso
      rw [hxs, hys] at hic
      have hxs_ne : xs ≠ [] := by
        intro h0
        rw [h0] at hxs
        simp [renderList] at hxs
      obtain ⟨x', xs', rfl⟩ := List.exists_cons_of_ne_nil hxs_ne
      exact ic_renderList_ne_nil x' xs' (by rw [hxs, hic]; rfl)
    | cons b bs =>
      rw [ic_cons_ne_nil (ser x) (a :: as) (by simp),
        ic_cons_ne_nil (ser y) (b :: bs) (by simp), hxy]
      rw [hxs, hys] at hic
      rw [hic]

mutual

theorem keyPerm_ser : ∀ {v₁ v₂ : JValue}, KeyPerm v₁ v₂ → nodupKeysB v₁ = true →
    ser v₁ = ser v₂
  | _, _, .refl _, _ => rfl
  | _, _, @KeyPerm.arrCons x y xs ys hxy hrest, hn => by
    have hx : nodupKeysB x = true ∧ nodupKeysL xs = true := by
      simpa [nodupKeysB, nodupKeysL, Bool.and_eq_true] using hn
    have ih1 : ser x = ser y := keyPerm_ser hxy hx.1
    have ih2 : ser (.arr xs) = ser (.arr ys) :=
      keyPerm_ser hrest (by simpa [nodupKeysB] using hx.2)
    rw [ser_arr_def, ser_arr_def] at ih2 ⊢
    have hic := wrap_inj ih2
    rw [ic_renderList_cons_congr ih1 hic]
  | _, _, @KeyPerm.obj fs gs hs hfields hperm, hn => by
    have hx : (fs.map Prod.fst).Nodup ∧ nodupKeysF fs = true := by
      simpa [nodupKeysB, Bool.and_eq_true, decide_eq_true_eq] using hn
    have hrf : renderFields fs = renderFields gs := keyPermFields_render hfields hx.2
    have hkeys := keyPermFields_keys hfields
    have hng : ((renderFields gs).map Prod.fst).Nodup := by
      rw [renderFields_eq_map]
      simpa [List.map_map, Function.comp_def] using (hkeys ▸ hx.1)
    have hsp : sortPairs (renderFields gs) = sortPairs (renderFields hs) := by
      apply sortPairs_congr_perm ?_ hng
      rw [renderFields_eq_map, renderFields_eq_map]
      exact hperm.map _
    rw [ser_obj_def, ser_obj_def, hrf, hsp]

theorem keyPermFields_render : ∀ {fs gs : List (String × JValue)}, KeyPermFields fs gs →
    nodupKeysF fs = true → renderFields fs = renderFields gs
  | _, _, .nil, _ => rfl
  | _, _, @KeyPermFields.cons k v w fs' gs' hv hrest, hn => by
    have h1 : nodupKeysB v = true ∧ nodupKeysF fs' = true := by
      simpa [nodupKeysF, Bool.and_eq_true] using hn
    show (k, ser v) :: renderFields fs' = (k, ser w) :: renderFields gs'
    rw [keyPerm_ser hv h1.1, keyPermFields_render hrest h1.2]

end

/-- **C9 (code bug).** `serialize` is `json.dumps` with its default
`allow_nan=True`: a record containing a float NaN or an infinity is
silently rendered as the non-JSON tokens `NaN` / `Infinity` /
`-Infinity`, and no exception is raised — contradicting the spec's
EncodingError and the serializer's own RFC 8785 docstring. -/
theorem serialize_nan_silent :
    serialize (.obj [("valor", .nan)]) = "\x7b\"valor\":NaN\x7d" ∧
    serialize (.obj [("valor", .inf)]) = "\x7b\"valor\":Infinity\x7d" ∧
    serialize (.obj [("valor", .ninf)]) = "\x7b\"valor\":-Infinity\x7d" := by
  refine ⟨?_, ?_, ?_⟩ <;> decide

end AEE
